import Mathlib

/-!
Verification of the Transit arrival aggregator (src/transit.py).

The aggregation logic of `TransitAPI.get_bus_arrival_times` and the
`/api/bus-arrivals` Flask handler are embedded shallowly:

* Upstream JSON objects become structures whose fields are `Option`-valued,
  one `Option` layer per field that the Python code reads with `.get` or
  tests for key membership.  A field read with direct indexing
  (`stop["stop_name"]`) is still `Option`-valued in the embedding and a
  missing value raises, modelled as `Except.error "KeyError"`.
* The two outbound HTTP calls become oracle parameters:
  `get_nearby_stops : α → α → Option (Option (List StopObj))` where the
  outer `none` is a request failure (the Python wrapper catches the
  exception and returns `None`) and the inner `none` is a JSON object
  without a `"stops"` key (which also covers the falsy empty object, since
  an object containing `"stops"` is never falsy); similarly for
  `get_stop_departures`.
* Python truthiness of an optional epoch-seconds value (`None` and `0` are
  falsy) is `truthyInt`.
* `time.time()` is a parameter `now : Int`; epoch timestamps are `Int` and
  Python floor division `//` is `Int.fdiv`.
* Coordinates are an arbitrary type `α`: the aggregator only carries them
  through, performing no arithmetic on them.
* The display-only `scheduled_time` strftime field and the ISO `timestamp`
  field of the response are outside the model, as is the platform-dependent
  partiality of `datetime.fromtimestamp`.
-/

/-- A schedule item of an itinerary, as read by the code with `.get`:
`departure_time`, `scheduled_departure_time` (epoch seconds) and
`is_real_time` are all optional. -/
structure ScheduleItem where
  departure_time : Option Int
  scheduled_departure_time : Option Int
  is_real_time : Option Bool
deriving DecidableEq

/-- An itinerary of a route: optional `direction_headsign` and optional list
of schedule items (the code defaults the latter to `[]`). -/
structure Itinerary where
  direction_headsign : Option String
  schedule_items : Option (List ScheduleItem)
deriving DecidableEq

/-- One entry of the `route_departures` collection: optional route names and
optional itinerary list. -/
structure RouteDeparture where
  route_long_name : Option String
  route_short_name : Option String
  itineraries : Option (List Itinerary)
deriving DecidableEq

/-- A stop object of the nearby-stops response.  The code reads
`stop["stop_name"]`, `stop["global_stop_id"]` and `stop["distance"]` by
direct indexing, so each field is optional in the embedding and a missing
one raises `KeyError`. -/
structure StopObj where
  stop_name : Option String
  global_stop_id : Option String
  distance : Option Int
deriving DecidableEq

/-- The flat output record appended to `arrival_info` (the display-only
`scheduled_time` string is outside the model). -/
structure ArrivalRecord where
  stop_name : String
  global_stop_id : String
  route_name : String
  route_short_name : String
  direction : String
  arrival_in_minutes : Int
  is_real_time : Bool
  distance_meters : Int
  departure_timestamp : Int
deriving DecidableEq

/-- The structured response dictionary built by `get_bus_arrival_times`
(`data.location`, `data.stops_count`, `data.arrivals` are flattened into
fields; the ISO `timestamp` string is outside the model). -/
structure AggResult (α : Type) where
  success : Bool
  message : String
  latitude : α
  longitude : α
  stops_count : Nat
  arrivals : List ArrivalRecord
  error : Option String
deriving DecidableEq

/-- `seconds_to_minutes` of `TransitAPI`: minutes from `now` until the given
epoch timestamp, floored and clamped at zero.  `current_time = int(time.time())`
is the parameter `now`; Python `//` is floor division, `Int.fdiv`. -/
def seconds_to_minutes (now seconds_timestamp : Int) : Int :=
  max 0 ((seconds_timestamp - now).fdiv 60)

/-- Python truthiness of an optional integer: `None` and `0` are falsy. -/
def truthyInt : Option Int → Bool
  | none => false
  | some t => t != 0

/-- Line 103 of the source:
`actual_departure_time = departure_time if departure_time else scheduled_time`. -/
def actualDepartureTime (s : ScheduleItem) : Option Int :=
  if truthyInt s.departure_time then s.departure_time else s.scheduled_departure_time

/-- The records (zero or one) contributed by a single schedule item:
lines 100-121 of the source.  The guard `if actual_departure_time:` is
Python truthiness again, so an actual time of `0` produces nothing. -/
def scheduleRecord (now : Int) (stop_name global_stop_id : String) (distance : Int)
    (route_name route_short_name direction : String) (s : ScheduleItem) : List ArrivalRecord :=
  match actualDepartureTime s with
  | some t =>
    if t != 0 then
      [{ stop_name := stop_name
         global_stop_id := global_stop_id
         route_name := route_name
         route_short_name := route_short_name
         direction := direction
         arrival_in_minutes := seconds_to_minutes now t
         is_real_time := s.is_real_time.getD false
         distance_meters := distance
         departure_timestamp := t }]
    else []
  | none => []

/-- Records contributed by one itinerary (inner loop over
`itinerary.get("schedule_items", [])`). -/
def itineraryRecords (now : Int) (stop_name global_stop_id : String) (distance : Int)
    (route_name route_short_name : String) (it : Itinerary) : List ArrivalRecord :=
  (it.schedule_items.getD []).flatMap
    (scheduleRecord now stop_name global_stop_id distance route_name route_short_name
      (it.direction_headsign.getD "Unknown Direction"))

/-- Records contributed by one route (loop over `route.get("itineraries", [])`). -/
def routeRecords (now : Int) (stop_name global_stop_id : String) (distance : Int)
    (route : RouteDeparture) : List ArrivalRecord :=
  (route.itineraries.getD []).flatMap
    (itineraryRecords now stop_name global_stop_id distance
      (route.route_long_name.getD "Unknown Route") (route.route_short_name.getD ""))

/-- Records contributed by one stop given its departures response; a failed
call or a response without a `route_departures` key contributes nothing
(lines 86-88: `continue`). -/
def stopDepRecords (now : Int) (stop_name global_stop_id : String) (distance : Int)
    (departures_data : Option (Option (List RouteDeparture))) : List ArrivalRecord :=
  match departures_data with
  | some (some routes) => routes.flatMap (routeRecords now stop_name global_stop_id distance)
  | _ => []

/-- The stop loop of lines 81-121: reads the three required stop fields
(raising `KeyError` when one is absent), fetches departures for the stop and
accumulates the flat `arrival_info` list in traversal order. -/
def collectArrivals (now : Int)
    (get_stop_departures : String → Option (Option (List RouteDeparture))) :
    List StopObj → Except String (List ArrivalRecord)
  | [] => .ok []
  | stop :: rest =>
    match stop.stop_name, stop.global_stop_id, stop.distance with
    | some n, some g, some d =>
      (collectArrivals now get_stop_departures rest).map
        (fun tail => stopDepRecords now n g d (get_stop_departures g) ++ tail)
    | _, _, _ => .error "KeyError"

/-- Stable insertion of a record in front of the first element whose
`arrival_in_minutes` is not smaller. -/
def insertArrival (a : ArrivalRecord) : List ArrivalRecord → List ArrivalRecord
  | [] => [a]
  | b :: l =>
    if a.arrival_in_minutes ≤ b.arrival_in_minutes then a :: b :: l
    else b :: insertArrival a l

/-- The stable ascending sort by `arrival_in_minutes` performed by
`arrival_info.sort(key=lambda x: x["arrival_in_minutes"])` (Python
`list.sort` is specified stable). -/
def sortArrivals (l : List ArrivalRecord) : List ArrivalRecord :=
  l.foldr insertArrival []

/-- `TransitAPI.get_bus_arrival_times`.  The upstream calls are the oracle
parameters `get_nearby_stops` and `get_stop_departures`; a `KeyError`
escaping the stop loop is the `Except.error` outcome. -/
def get_bus_arrival_times {α : Type} (now : Int)
    (get_nearby_stops : α → α → Option (Option (List StopObj)))
    (get_stop_departures : String → Option (Option (List RouteDeparture)))
    (lat lon : α) : Except String (AggResult α) :=
  match get_nearby_stops lat lon with
  | some (some stops) =>
    (collectArrivals now get_stop_departures stops).map (fun arrival_info =>
      let sorted := sortArrivals arrival_info
      let n := sorted.length
      let m := stops.length
      { success := true
        message := s!"Found {n} upcoming departures from {m} nearby stops"
        latitude := lat
        longitude := lon
        stops_count := stops.length
        arrivals := sorted
        error := none })
  | _ =>
    .ok { success := false
          message := "No stops found or error retrieving stops"
          latitude := lat
          longitude := lon
          stops_count := 0
          arrivals := []
          error := some "STOPS_NOT_FOUND" }

/-- The JSON body of a 400 response of the Flask handler. -/
structure ClientError where
  success : Bool
  message : String
  error : String
deriving DecidableEq

/-- Outcome of the `/api/bus-arrivals` handler: an early 400 with an error
body, or the aggregator result serialized with its HTTP status. -/
inductive HttpOutcome (α : Type) where
  | clientError (status : Nat) (body : ClientError)
  | apiResult (status : Nat) (result : AggResult α)
deriving DecidableEq

/-- The `/api/bus-arrivals` Flask handler (lines 158-188).  Query parameters
arrive as optional strings; `float(...)` is the oracle `parseCoord`, whose
failure is the `ValueError` branch.  The status of the aggregated response is
200 when `success` and 404 otherwise. -/
def get_bus_arrivals {α : Type} (parseCoord : String → Option α) (now : Int)
    (get_nearby_stops : α → α → Option (Option (List StopObj)))
    (get_stop_departures : String → Option (Option (List RouteDeparture)))
    (latArg lonArg : Option String) : Except String (HttpOutcome α) :=
  match latArg, lonArg with
  | some latStr, some lonStr =>
    match parseCoord latStr, parseCoord lonStr with
    | some lat, some lon =>
      (get_bus_arrival_times now get_nearby_stops get_stop_departures lat lon).map
        (fun result => .apiResult (if result.success then 200 else 404) result)
    | _, _ =>
      .ok (.clientError 400
        { success := false
          message := "Invalid latitude or longitude values"
          error := "INVALID_PARAMETERS" })
  | _, _ =>
    .ok (.clientError 400
      { success := false
        message := "Missing required parameters: lat and lon"
        error := "MISSING_PARAMETERS" })

/-- Modelled from the spec: "determine `actualDepartureTime` preferring the
real-time `departure_time` field over `scheduled_departure_time`", read as
preference by presence of the field.  Named to be compared against the
source-derived `actualDepartureTime`. -/
def specPreferredDepartureTime (s : ScheduleItem) : Option Int :=
  s.departure_time.orElse (fun _ => s.scheduled_departure_time)

/-- Concrete fixture: a well-formed stop object. -/
def wStop : StopObj :=
  { stop_name := some "Stop A", global_stop_id := some "GA", distance := some 12 }

/-- Concrete fixture: a stop object whose departures lookup will fail. -/
def badStop : StopObj :=
  { stop_name := some "Bad", global_stop_id := some "GBAD", distance := some 99 }

/-- Concrete fixture: one real-time schedule item departing 260s after time 0. -/
def wSchedule : ScheduleItem :=
  { departure_time := some 260, scheduled_departure_time := none, is_real_time := some true }

/-- Concrete fixture: one route with one itinerary holding `wSchedule`. -/
def wRoute : RouteDeparture :=
  { route_long_name := some "Blue", route_short_name := some "B",
    itineraries := some
      [{ direction_headsign := some "North", schedule_items := some [wSchedule] }] }

/-- Concrete fixture: a departures oracle answering every stop with `wRoute`. -/
def wDeps : String → Option (Option (List RouteDeparture)) :=
  fun _ => some (some [wRoute])

/-- Concrete fixture: a departures oracle failing on `badStop` only. -/
def wDepsSel : String → Option (Option (List RouteDeparture)) :=
  fun gsid => if gsid = "GBAD" then none else some (some [wRoute])

/-- Concrete fixture: a nearby-stops oracle returning exactly `wStop`. -/
def wStops : Int → Int → Option (Option (List StopObj)) :=
  fun _ _ => some (some [wStop])

/-- The arrival record the fixtures produce at time 0. -/
def wRecord : ArrivalRecord :=
  { stop_name := "Stop A", global_stop_id := "GA", route_name := "Blue",
    route_short_name := "B", direction := "North", arrival_in_minutes := 4,
    is_real_time := true, distance_meters := 12, departure_timestamp := 260 }

/-- The aggregate result the fixtures produce at time 0 and coordinates (0, 0). -/
def wResult : AggResult Int :=
  { success := true
    message := "Found 1 upcoming departures from 1 nearby stops"
    latitude := 0
    longitude := 0
    stops_count := 1
    arrivals := [wRecord]
    error := none }

/-- The comparison the Python sort key induces on two arrival records. -/
def arrivalLE (a b : ArrivalRecord) : Prop :=
  a.arrival_in_minutes ≤ b.arrival_in_minutes

theorem exceptMap_ok {ε α β : Type} (f : α → β) (e : Except ε α) (b : β)
    (h : e.map f = .ok b) : ∃ a, e = .ok a ∧ b = f a := by
  cases e with
  | error x => simp [Except.map] at h
  | ok a => exact ⟨a, rfl, by simpa [Except.map] using h.symm⟩

theorem mem_insertArrival (x a : ArrivalRecord) (l : List ArrivalRecord) :
    x ∈ insertArrival a l ↔ x = a ∨ x ∈ l := by
  induction l with
  | nil => simp [insertArrival]
  | cons b l ih =>
    by_cases h : a.arrival_in_minutes ≤ b.arrival_in_minutes
    · simp [insertArrival, h]
    · simp only [insertArrival, if_neg h, List.mem_cons, ih]
      tauto

theorem insertArrival_perm (a : ArrivalRecord) (l : List ArrivalRecord) :
    List.Perm (insertArrival a l) (a :: l) := by
  induction l with
  | nil => rfl
  | cons b l ih =>
    by_cases h : a.arrival_in_minutes ≤ b.arrival_in_minutes
    · simp [insertArrival, h]
    · simpa [insertArrival, h] using (ih.cons b).trans (List.Perm.swap a b l)

theorem pairwise_insertArrival (a : ArrivalRecord) (l : List ArrivalRecord)
    (h : l.Pairwise arrivalLE) : (insertArrival a l).Pairwise arrivalLE := by
  induction l with
  | nil => simp [insertArrival]
  | cons b l ih =>
    rcases List.pairwise_cons.mp h with ⟨hb, hl⟩
    by_cases hab : a.arrival_in_minutes ≤ b.arrival_in_minutes
    · rw [insertArrival, if_pos hab]
      refine List.pairwise_cons.mpr ⟨?_, h⟩
      intro x hx
      rcases List.mem_cons.mp hx with rfl | hx
      · exact hab
      · exact le_trans hab (hb x hx)
    · rw [insertArrival, if_neg hab]
      refine List.pairwise_cons.mpr ⟨?_, ih hl⟩
      intro x hx
      rcases (mem_insertArrival x a l).mp hx with rfl | hx
      · exact le_of_not_le hab
      · exact hb x hx

theorem filter_insertArrival (k : Int) (a : ArrivalRecord) (l : List ArrivalRecord) :
    (insertArrival a l).filter (fun x => decide (x.arrival_in_minutes = k))
      = if a.arrival_in_minutes = k
        then a :: l.filter (fun x => decide (x.arrival_in_minutes = k))
        else l.filter (fun x => decide (x.arrival_in_minutes = k)) := by
  induction l with
  | nil =>
    by_cases ha : a.arrival_in_minutes = k <;> simp [insertArrival, List.filter, ha]
  | cons b l ih =>
    by_cases hab : a.arrival_in_minutes ≤ b.arrival_in_minutes
    · rw [insertArrival, if_pos hab]
      by_cases ha : a.arrival_in_minutes = k <;> simp [List.filter_cons, ha]
    · rw [insertArrival, if_neg hab]
      by_cases hb : b.arrival_in_minutes = k
      · have ha : ¬a.arrival_in_minutes = k := by
          intro ha
          exact hab (le_of_eq (ha.trans hb.symm))
        simp [List.filter_cons, ha, hb, ih]
      · by_cases ha : a.arrival_in_minutes = k <;>
          simp [List.filter_cons, ha, hb, ih]

theorem sortArrivals_pairwise (l : List ArrivalRecord) :
    (sortArrivals l).Pairwise arrivalLE := by
  induction l with
  | nil => simp [sortArrivals]
  | cons a l ih => exact pairwise_insertArrival a _ ih

theorem sortArrivals_perm (l : List ArrivalRecord) : List.Perm (sortArrivals l) l := by
  induction l with
  | nil => rfl
  | cons a l ih => exact (insertArrival_perm a _).trans (ih.cons a)

theorem sortArrivals_filter (k : Int) (l : List ArrivalRecord) :
    (sortArrivals l).filter (fun x => decide (x.arrival_in_minutes = k))
      = l.filter (fun x => decide (x.arrival_in_minutes = k)) := by
  induction l with
  | nil => rfl
  | cons a l ih =>
    have hcons : sortArrivals (a :: l) = insertArrival a (sortArrivals l) := rfl
    rw [hcons, filter_insertArrival, List.filter_cons]
    by_cases ha : a.arrival_in_minutes = k <;> simp [ha, ih]

theorem mem_scheduleRecord {rec : ArrivalRecord} {now : Int} {n g : String} {d : Int}
    {rn rs dir : String} {s : ScheduleItem}
    (h : rec ∈ scheduleRecord now n g d rn rs dir s) :
    rec.arrival_in_minutes = seconds_to_minutes now rec.departure_timestamp := by
  unfold scheduleRecord at h
  split at h
  · split at h
    · rcases List.mem_singleton.mp h with rfl
      rfl
    · simp at h
  · simp at h

theorem mem_stopDepRecords {rec : ArrivalRecord} {now : Int} {n g : String} {d : Int}
    {deps : Option (Option (List RouteDeparture))}
    (h : rec ∈ stopDepRecords now n g d deps) :
    rec.arrival_in_minutes = seconds_to_minutes now rec.departure_timestamp := by
  unfold stopDepRecords at h
  split at h
  · rcases List.mem_flatMap.mp h with ⟨route, _, hr⟩
    unfold routeRecords at hr
    rcases List.mem_flatMap.mp hr with ⟨it, _, hi⟩
    unfold itineraryRecords at hi
    rcases List.mem_flatMap.mp hi with ⟨s, _, hs⟩
    exact mem_scheduleRecord hs
  · simp at h

theorem mem_collectArrivals {now : Int}
    {gsd : String → Option (Option (List RouteDeparture))}
    {stops : List StopObj} {flat : List ArrivalRecord}
    (h : collectArrivals now gsd stops = .ok flat) {rec : ArrivalRecord}
    (hm : rec ∈ flat) :
    rec.arrival_in_minutes = seconds_to_minutes now rec.departure_timestamp := by
  induction stops generalizing flat with
  | nil =>
    rcases Except.ok.inj h with rfl
    simp at hm
  | cons stop rest ih =>
    unfold collectArrivals at h
    split at h
    · rcases exceptMap_ok _ _ _ h with ⟨tail, htail, rfl⟩
      rcases List.mem_append.mp hm with hm2 | hm2
      · exact mem_stopDepRecords hm2
      · exact ih htail hm2
    · simp at h

theorem collectArrivals_isOk {now : Int}
    {gsd : String → Option (Option (List RouteDeparture))} {stops : List StopObj}
    (h : ∀ st ∈ stops, st.stop_name ≠ none ∧ st.global_stop_id ≠ none ∧ st.distance ≠ none) :
    ∃ flat, collectArrivals now gsd stops = .ok flat := by
  induction stops with
  | nil => exact ⟨[], rfl⟩
  | cons stop rest ih =>
    obtain ⟨flat, hflat⟩ := ih (fun st hst => h st (List.mem_cons_of_mem stop hst))
    have h1 := (h stop (List.mem_cons_self stop rest)).1
    have h2 := (h stop (List.mem_cons_self stop rest)).2.1
    have h3 := (h stop (List.mem_cons_self stop rest)).2.2
    cases hsn : stop.stop_name with
    | none => exact absurd hsn h1
    | some n =>
      cases hsg : stop.global_stop_id with
      | none => exact absurd hsg h2
      | some g =>
        cases hsd : stop.distance with
        | none => exact absurd hsd h3
        | some d =>
          refine ⟨stopDepRecords now n g d (gsd g) ++ flat, ?_⟩
          unfold collectArrivals
          simp only [hsn, hsg, hsd, hflat]
          rfl

theorem collectArrivals_skip (now : Int)
    (gsd : String → Option (Option (List RouteDeparture))) (bad : StopObj)
    (n g : String) (d : Int)
    (hn : bad.stop_name = some n) (hg : bad.global_stop_id = some g)
    (hd : bad.distance = some d)
    (hfail : gsd g = none ∨ gsd g = some none) :
    ∀ l1 l2 : List StopObj,
      collectArrivals now gsd (l1 ++ bad :: l2) = collectArrivals now gsd (l1 ++ l2) := by
  have hdep : stopDepRecords now n g d (gsd g) = [] := by
    rcases hfail with h | h <;> rw [h] <;> rfl
  intro l1
  induction l1 with
  | nil =>
    intro l2
    simp only [List.nil_append]
    conv_lhs => rw [collectArrivals]
    simp only [hn, hg, hd, hdep]
    cases hres : collectArrivals now gsd l2 with
    | error e => rfl
    | ok tail => rfl
  | cons stop l1 ih =>
    intro l2
    simp only [List.cons_append]
    conv_lhs => rw [collectArrivals]
    conv_rhs => rw [collectArrivals]
    rw [ih l2]

theorem get_ok_of_stops {α : Type} (now : Int)
    (gns : α → α → Option (Option (List StopObj)))
    (gsd : String → Option (Option (List RouteDeparture))) (lat lon : α)
    (stops : List StopObj) (flat : List ArrivalRecord)
    (hs : gns lat lon = some (some stops))
    (hc : collectArrivals now gsd stops = .ok flat) :
    get_bus_arrival_times now gns gsd lat lon = .ok
      { success := true
        message := s!"Found {(sortArrivals flat).length} upcoming departures from {stops.length} nearby stops"
        latitude := lat
        longitude := lon
        stops_count := stops.length
        arrivals := sortArrivals flat
        error := none } := by
  unfold get_bus_arrival_times
  simp only [hs, hc]
  rfl

theorem get_fail {α : Type} (now : Int)
    (gns : α → α → Option (Option (List StopObj)))
    (gsd : String → Option (Option (List RouteDeparture))) (lat lon : α)
    (hfail : gns lat lon = none ∨ gns lat lon = some none) :
    get_bus_arrival_times now gns gsd lat lon = .ok
      { success := false
        message := "No stops found or error retrieving stops"
        latitude := lat
        longitude := lon
        stops_count := 0
        arrivals := []
        error := some "STOPS_NOT_FOUND" } := by
  unfold get_bus_arrival_times
  rcases hfail with h | h <;> rw [h]

theorem get_err {α : Type} (now : Int)
    (gns : α → α → Option (Option (List StopObj)))
    (gsd : String → Option (Option (List RouteDeparture))) (lat lon : α)
    (stops : List StopObj) (e : String)
    (hs : gns lat lon = some (some stops))
    (hc : collectArrivals now gsd stops = .error e) :
    get_bus_arrival_times now gns gsd lat lon = .error e := by
  unfold get_bus_arrival_times
  simp only [hs, hc]
  rfl

/-- C1: whenever `get_bus_arrival_times` returns a result, its arrivals list
is sorted non-decreasing by `arrival_in_minutes`; on the path where stops
were received and the traversal produced the flat list, the output is
exactly the stable sort of that flattened traversal list: equal to
`sortArrivals`, a permutation of the flat list, and with every
equal-minutes class kept in original traversal order (filter-stability). -/
theorem C1_arrivals_sorted_stable {α : Type} (now : Int)
    (gns : α → α → Option (Option (List StopObj)))
    (gsd : String → Option (Option (List RouteDeparture))) (lat lon : α)
    (r : AggResult α)
    (h : get_bus_arrival_times now gns gsd lat lon = .ok r) :
    r.arrivals.Pairwise arrivalLE ∧
    ∀ stops flat, gns lat lon = some (some stops) →
      collectArrivals now gsd stops = .ok flat →
      (r.arrivals = sortArrivals flat ∧ List.Perm r.arrivals flat ∧
        ∀ k : Int, r.arrivals.filter (fun x => decide (x.arrival_in_minutes = k))
          = flat.filter (fun x => decide (x.arrival_in_minutes = k))) := by
  cases hgv : gns lat lon with
  | none =>
    rw [get_fail now gns gsd lat lon (Or.inl hgv)] at h
    obtain rfl := (Except.ok.inj h).symm
    refine ⟨List.Pairwise.nil, ?_⟩
    intro stops flat hs hcf
    exact Option.noConfusion hs
  | some o =>
    cases o with
    | none =>
      rw [get_fail now gns gsd lat lon (Or.inr hgv)] at h
      obtain rfl := (Except.ok.inj h).symm
      refine ⟨List.Pairwise.nil, ?_⟩
      intro stops flat hs hcf
      exact Option.noConfusion (Option.some.inj hs)
    | some stops0 =>
      cases hcv : collectArrivals now gsd stops0 with
      | error e =>
        rw [get_err now gns gsd lat lon stops0 e hgv hcv] at h
        exact absurd h (by simp)
      | ok flat0 =>
        rw [get_ok_of_stops now gns gsd lat lon stops0 flat0 hgv hcv] at h
        obtain rfl := (Except.ok.inj h).symm
        constructor
        · exact sortArrivals_pairwise flat0
        · intro stops flat hs hcf
          obtain rfl : stops0 = stops := Option.some.inj (Option.some.inj hs)
          rw [hcv] at hcf
          obtain rfl := Except.ok.inj hcf
          exact ⟨rfl, sortArrivals_perm flat0, fun k => sortArrivals_filter k flat0⟩

/-- C2: every record in a returned arrivals list has
`arrival_in_minutes = max 0 ((departure_timestamp - now) / 60)` with floor
division (that is, `seconds_to_minutes` of its own departure timestamp), and
is therefore non-negative.  The code reads the clock once per item; the
embedding takes `now` as the value of that read. -/
theorem C2_minutes_formula {α : Type} (now : Int)
    (gns : α → α → Option (Option (List StopObj)))
    (gsd : String → Option (Option (List RouteDeparture))) (lat lon : α)
    (r : AggResult α) (rec : ArrivalRecord)
    (h : get_bus_arrival_times now gns gsd lat lon = .ok r)
    (hm : rec ∈ r.arrivals) :
    rec.arrival_in_minutes = seconds_to_minutes now rec.departure_timestamp ∧
    rec.arrival_in_minutes = max 0 ((rec.departure_timestamp - now).fdiv 60) ∧
    0 ≤ rec.arrival_in_minutes := by
  have hfm : rec.arrival_in_minutes = seconds_to_minutes now rec.departure_timestamp := by
    cases hgv : gns lat lon with
    | none =>
      rw [get_fail now gns gsd lat lon (Or.inl hgv)] at h
      obtain rfl := (Except.ok.inj h).symm
      simp at hm
    | some o =>
      cases o with
      | none =>
        rw [get_fail now gns gsd lat lon (Or.inr hgv)] at h
        obtain rfl := (Except.ok.inj h).symm
        simp at hm
      | some stops0 =>
        cases hcv : collectArrivals now gsd stops0 with
        | error e =>
          rw [get_err now gns gsd lat lon stops0 e hgv hcv] at h
          exact absurd h (by simp)
        | ok flat0 =>
          rw [get_ok_of_stops now gns gsd lat lon stops0 flat0 hgv hcv] at h
          obtain rfl := (Except.ok.inj h).symm
          have hmem : rec ∈ flat0 := (sortArrivals_perm flat0).mem_iff.mp hm
          exact mem_collectArrivals hcv hmem
  refine ⟨hfm, hfm, ?_⟩
  rw [hfm]
  exact le_max_left 0 _

/-- C3 counterexample: an upstream response that does contain a stops
collection, but with zero stops, makes the aggregator return success with no
error code and the endpoint serve status 200, contradicting the claimed
STOPS_NOT_FOUND / 404 outcome for zero stops. -/
theorem C3_counterexample :
    (get_bus_arrival_times 0 (fun _ _ : Int => some (some ([] : List StopObj)))
        (fun _ => none) 0 0).map (fun r => (r.success, r.error, r.stops_count, r.arrivals))
      = .ok (true, none, 0, []) ∧
    (get_bus_arrivals (fun _ => some (0 : Int)) 0 (fun _ _ => some (some []))
        (fun _ => none) (some "39.2") (some "-76.6")).map
        (fun o => match o with
          | .apiResult st res => (st, res.success)
          | .clientError st _ => (st, false))
      = .ok (200, true) := ⟨rfl, rfl⟩

/-- C3 (amended): when the nearby-stops call fails, or its response lacks a
stops collection, the aggregator returns an unsuccessful result with error
STOPS_NOT_FOUND and an empty arrivals list, and the endpoint serves it with
status 404; a response carrying an empty stops list instead yields a
successful 200 result (see the counterexample). -/
theorem C3_amended_stops_not_found {α : Type} (now : Int)
    (gns : α → α → Option (Option (List StopObj)))
    (gsd : String → Option (Option (List RouteDeparture)))
    (parseCoord : String → Option α) (latStr lonStr : String) (lat lon : α)
    (hla : parseCoord latStr = some lat) (hlo : parseCoord lonStr = some lon)
    (hfail : gns lat lon = none ∨ gns lat lon = some none) :
    get_bus_arrival_times now gns gsd lat lon = .ok
      { success := false
        message := "No stops found or error retrieving stops"
        latitude := lat
        longitude := lon
        stops_count := 0
        arrivals := []
        error := some "STOPS_NOT_FOUND" } ∧
    get_bus_arrivals parseCoord now gns gsd (some latStr) (some lonStr) = .ok
      (.apiResult 404
        { success := false
          message := "No stops found or error retrieving stops"
          latitude := lat
          longitude := lon
          stops_count := 0
          arrivals := []
          error := some "STOPS_NOT_FOUND" }) := by
  have h1 := get_fail now gns gsd lat lon hfail
  refine ⟨h1, ?_⟩
  unfold get_bus_arrivals
  simp only [hla, hlo, h1]
  rfl

/-- C4 counterexample: a nearby-stops response whose single stop object
lacks `stop_name` makes `get_bus_arrival_times` raise `KeyError` to its
caller instead of skipping the item. -/
theorem C4_counterexample :
    get_bus_arrival_times 0
        (fun _ _ : Int => some (some
          [{ stop_name := none, global_stop_id := some "G1", distance := some 10 }]))
        (fun _ => none) 0 0
      = .error "KeyError" := rfl

/-- C4 (amended): upstream call failures and missing fields at route,
itinerary or schedule level are absorbed (treated as absent data or
skipped), and the aggregator returns normally, provided every stop object of
the nearby-stops response carries the three directly-indexed fields
`stop_name`, `global_stop_id` and `distance`; a stop object missing one of
those raises a `KeyError` (see the counterexample). -/
theorem C4_no_raise_when_stops_well_formed {α : Type} (now : Int)
    (gns : α → α → Option (Option (List StopObj)))
    (gsd : String → Option (Option (List RouteDeparture))) (lat lon : α)
    (hwf : ∀ stops, gns lat lon = some (some stops) →
      ∀ st ∈ stops, st.stop_name ≠ none ∧ st.global_stop_id ≠ none ∧ st.distance ≠ none) :
    ∃ r : AggResult α, get_bus_arrival_times now gns gsd lat lon = .ok r := by
  cases hgv : gns lat lon with
  | none => exact ⟨_, get_fail now gns gsd lat lon (Or.inl hgv)⟩
  | some o =>
    cases o with
    | none => exact ⟨_, get_fail now gns gsd lat lon (Or.inr hgv)⟩
    | some stops =>
      obtain ⟨flat, hflat⟩ := collectArrivals_isOk (hwf stops hgv)
      exact ⟨_, get_ok_of_stops now gns gsd lat lon stops flat hgv hflat⟩

/-- C5 counterexample: on a schedule item whose `departure_time` is present
with value 0 while `scheduled_departure_time` is 300, the code does not use
the preferred-by-presence field: it takes 300, and the produced record
carries timestamp 300. -/
theorem C5_counterexample :
    actualDepartureTime
        { departure_time := some 0, scheduled_departure_time := some 300, is_real_time := none }
      = some 300 ∧
    specPreferredDepartureTime
        { departure_time := some 0, scheduled_departure_time := some 300, is_real_time := none }
      = some 0 ∧
    actualDepartureTime
        { departure_time := some 0, scheduled_departure_time := some 300, is_real_time := none }
      ≠ specPreferredDepartureTime
        { departure_time := some 0, scheduled_departure_time := some 300, is_real_time := none } ∧
    (scheduleRecord 0 "s" "g" 1 "r" "10" "d"
        { departure_time := some 0, scheduled_departure_time := some 300, is_real_time := none }).map
        (fun x => x.departure_timestamp)
      = [300] :=
  ⟨rfl, rfl, by decide, rfl⟩

/-- C5 (amended): `departure_time` is preferred only when it is truthy
(present and nonzero); when it is absent or 0 the code falls back to
`scheduled_departure_time`; and a schedule item with neither field present
produces no arrival record. -/
theorem C5_amended_preference (s : ScheduleItem) :
    (truthyInt s.departure_time = true → actualDepartureTime s = s.departure_time) ∧
    (truthyInt s.departure_time = false → actualDepartureTime s = s.scheduled_departure_time) ∧
    (s.departure_time = none → s.scheduled_departure_time = none →
      ∀ (now : Int) (n g : String) (d : Int) (rn rs dir : String),
        scheduleRecord now n g d rn rs dir s = []) := by
  refine ⟨?_, ?_, ?_⟩
  · intro ht
    rw [actualDepartureTime, if_pos ht]
  · intro ht
    rw [actualDepartureTime, if_neg (by simp [ht])]
  · intro h1 h2 now n g d rn rs dir
    have ha : actualDepartureTime s = none := by
      rw [actualDepartureTime, h1, h2]
      simp [truthyInt]
    unfold scheduleRecord
    simp only [ha]

/-- C6: a stop whose departures call fails (request failure, or a response
without a `route_departures` collection) is skipped silently, and the
arrivals list is exactly the one computed from the remaining stops, so
records from every other stop are still present. -/
theorem C6_partial_failure_isolation {α : Type} (now : Int)
    (gsd : String → Option (Option (List RouteDeparture))) (lat lon : α)
    (l1 l2 : List StopObj) (bad : StopObj) (n g : String) (d : Int)
    (hn : bad.stop_name = some n) (hg : bad.global_stop_id = some g)
    (hd : bad.distance = some d)
    (hfail : gsd g = none ∨ gsd g = some none) :
    (get_bus_arrival_times now (fun _ _ => some (some (l1 ++ bad :: l2))) gsd lat lon).map
        AggResult.arrivals
      = (get_bus_arrival_times now (fun _ _ => some (some (l1 ++ l2))) gsd lat lon).map
        AggResult.arrivals := by
  have hskip := collectArrivals_skip now gsd bad n g d hn hg hd hfail l1 l2
  cases hcv : collectArrivals now gsd (l1 ++ l2) with
  | error e =>
    rw [get_err now (fun _ _ => some (some (l1 ++ bad :: l2))) gsd lat lon
          (l1 ++ bad :: l2) e rfl (hskip.trans hcv),
        get_err now (fun _ _ => some (some (l1 ++ l2))) gsd lat lon
          (l1 ++ l2) e rfl hcv]
  | ok flat =>
    rw [get_ok_of_stops now (fun _ _ => some (some (l1 ++ bad :: l2))) gsd lat lon
          (l1 ++ bad :: l2) flat rfl (hskip.trans hcv),
        get_ok_of_stops now (fun _ _ => some (some (l1 ++ l2))) gsd lat lon
          (l1 ++ l2) flat rfl hcv]
    rfl

/-- C7: the concrete spec example: a single stop Main St at 50m whose
departures carry route Route 10 (short name 10), itinerary Downtown and one
real-time schedule item departing 300 seconds from now produces exactly one
record with 5 minutes to arrival and the carried-through fields. -/
theorem C7_example_main_st :
    (get_bus_arrival_times 1700000000
        (fun _ _ : Int => some (some
          [{ stop_name := some "Main St", global_stop_id := some "MAINST", distance := some 50 }]))
        (fun _ => some (some
          [{ route_long_name := some "Route 10", route_short_name := some "10",
             itineraries := some
               [{ direction_headsign := some "Downtown",
                  schedule_items := some
                    [{ departure_time := some 1700000300,
                       scheduled_departure_time := none,
                       is_real_time := some true }] }] }]))
        0 0).map AggResult.arrivals
      = .ok [{ stop_name := "Main St", global_stop_id := "MAINST", route_name := "Route 10",
               route_short_name := "10", direction := "Downtown", arrival_in_minutes := 5,
               is_real_time := true, distance_meters := 50,
               departure_timestamp := 1700000300 }] := by
  rfl

/-- C8: a missing lat or lon query parameter yields 400 MISSING_PARAMETERS;
parameters both present of which at least one does not parse as a float
yield 400 INVALID_PARAMETERS; both responses are the same for every
upstream oracle and clock, so the aggregator is never consulted there. -/
theorem C8_parameter_validation {α : Type} (parseCoord : String → Option α) (now : Int)
    (gns : α → α → Option (Option (List StopObj)))
    (gsd : String → Option (Option (List RouteDeparture)))
    (latArg lonArg : Option String) :
    (latArg = none ∨ lonArg = none →
      get_bus_arrivals parseCoord now gns gsd latArg lonArg = .ok (.clientError 400
        { success := false
          message := "Missing required parameters: lat and lon"
          error := "MISSING_PARAMETERS" })) ∧
    (∀ latStr lonStr, latArg = some latStr → lonArg = some lonStr →
      (parseCoord latStr = none ∨ parseCoord lonStr = none) →
      get_bus_arrivals parseCoord now gns gsd latArg lonArg = .ok (.clientError 400
        { success := false
          message := "Invalid latitude or longitude values"
          error := "INVALID_PARAMETERS" })) := by
  constructor
  · rintro (rfl | rfl)
    · rfl
    · cases latArg with
      | none => rfl
      | some s => rfl
  · rintro latStr lonStr rfl rfl (hp | hp)
    · unfold get_bus_arrivals
      simp only [hp]
    · cases hq : parseCoord latStr with
      | none =>
        unfold get_bus_arrivals
        simp only [hq]
      | some v =>
        unfold get_bus_arrivals
        simp only [hq, hp]

/-- C9: presence of the time fields is decided by Python truthiness, not key
presence: with `departure_time` present but 0 the code uses
`scheduled_departure_time`, and when that is absent or 0 as well the item
produces no arrival record. -/
theorem C9_zero_is_absent (s : ScheduleItem) (h : s.departure_time = some 0) :
    actualDepartureTime s = s.scheduled_departure_time ∧
    ((s.scheduled_departure_time = none ∨ s.scheduled_departure_time = some 0) →
      ∀ (now : Int) (n g : String) (d : Int) (rn rs dir : String),
        scheduleRecord now n g d rn rs dir s = []) := by
  have h1 : actualDepartureTime s = s.scheduled_departure_time := by
    rw [actualDepartureTime, h]
    rfl
  refine ⟨h1, ?_⟩
  intro h2 now n g d rn rs dir
  have ha : actualDepartureTime s = none ∨ actualDepartureTime s = some 0 := by
    rcases h2 with h2 | h2
    · exact Or.inl (h1.trans h2)
    · exact Or.inr (h1.trans h2)
  rcases ha with ha | ha
  · unfold scheduleRecord
    simp only [ha]
  · unfold scheduleRecord
    simp only [ha]
    rfl

/-- C10: every returned result echoes the input coordinates in its location
fields, and on the unsuccessful outcome carries stops_count 0, an empty
arrivals list and error STOPS_NOT_FOUND. -/
theorem C10_location_echo {α : Type} (now : Int)
    (gns : α → α → Option (Option (List StopObj)))
    (gsd : String → Option (Option (List RouteDeparture))) (lat lon : α)
    (r : AggResult α)
    (h : get_bus_arrival_times now gns gsd lat lon = .ok r) :
    r.latitude = lat ∧ r.longitude = lon ∧
    (r.success = false →
      r.stops_count = 0 ∧ r.arrivals = [] ∧ r.error = some "STOPS_NOT_FOUND") := by
  cases hgv : gns lat lon with
  | none =>
    rw [get_fail now gns gsd lat lon (Or.inl hgv)] at h
    obtain rfl := (Except.ok.inj h).symm
    exact ⟨rfl, rfl, fun _ => ⟨rfl, rfl, rfl⟩⟩
  | some o =>
    cases o with
    | none =>
      rw [get_fail now gns gsd lat lon (Or.inr hgv)] at h
      obtain rfl := (Except.ok.inj h).symm
      exact ⟨rfl, rfl, fun _ => ⟨rfl, rfl, rfl⟩⟩
    | some stops =>
      cases hcv : collectArrivals now gsd stops with
      | error e =>
        rw [get_err now gns gsd lat lon stops e hgv hcv] at h
        exact absurd h (by simp)
      | ok flat =>
        rw [get_ok_of_stops now gns gsd lat lon stops flat hgv hcv] at h
        obtain rfl := (Except.ok.inj h).symm
        exact ⟨rfl, rfl, fun hfalse => absurd hfalse (by simp)⟩

/-- Witness for C1 at the concrete one-stop fixture. -/
theorem C1_witness :
    List.Pairwise arrivalLE wResult.arrivals ∧
    wResult.arrivals = sortArrivals [wRecord] :=
  ⟨(C1_arrivals_sorted_stable 0 wStops wDeps 0 0 wResult rfl).1,
   ((C1_arrivals_sorted_stable 0 wStops wDeps 0 0 wResult rfl).2 [wStop] [wRecord] rfl rfl).1⟩

/-- Witness for C2 at the concrete one-stop fixture. -/
theorem C2_witness :
    wRecord.arrival_in_minutes = seconds_to_minutes 0 wRecord.departure_timestamp ∧
    wRecord.arrival_in_minutes = max 0 ((wRecord.departure_timestamp - 0).fdiv 60) ∧
    0 ≤ wRecord.arrival_in_minutes :=
  C2_minutes_formula 0 wStops wDeps 0 0 wResult wRecord rfl (List.mem_singleton.mpr rfl)

/-- Witness for the amended C3 at a failing nearby-stops call. -/
theorem C3_witness :
    get_bus_arrival_times 7 (fun _ _ : Int => none) (fun _ => none) 1 2 = .ok
      { success := false
        message := "No stops found or error retrieving stops"
        latitude := 1
        longitude := 2
        stops_count := 0
        arrivals := []
        error := some "STOPS_NOT_FOUND" } ∧
    get_bus_arrivals (fun s => if s = "1" then some (1 : Int) else some 2) 7
        (fun _ _ => none) (fun _ => none) (some "1") (some "2") = .ok
      (.apiResult 404
        { success := false
          message := "No stops found or error retrieving stops"
          latitude := 1
          longitude := 2
          stops_count := 0
          arrivals := []
          error := some "STOPS_NOT_FOUND" }) :=
  C3_amended_stops_not_found 7 (fun _ _ => none) (fun _ => none)
    (fun s => if s = "1" then some 1 else some 2) "1" "2" 1 2 rfl rfl (Or.inl rfl)

/-- Witness for the amended C4 at the concrete one-stop fixture. -/
theorem C4_witness :
    ∃ r : AggResult Int, get_bus_arrival_times 0 wStops wDeps 0 0 = .ok r :=
  C4_no_raise_when_stops_well_formed 0 wStops wDeps 0 0 (fun stops hs => by
    obtain rfl : [wStop] = stops := Option.some.inj (Option.some.inj hs)
    intro st hst
    obtain rfl : st = wStop := List.mem_singleton.mp hst
    exact ⟨by decide, by decide, by decide⟩)

/-- Witness for the amended C5: a truthy departure time is used as is, and
an item with both time fields absent yields no record. -/
theorem C5_witness :
    actualDepartureTime
        { departure_time := some 120, scheduled_departure_time := some 600, is_real_time := none }
      = some 120 ∧
    scheduleRecord 0 "a" "b" 1 "c" "d" "e"
        { departure_time := none, scheduled_departure_time := none, is_real_time := none } = [] :=
  ⟨(C5_amended_preference
      { departure_time := some 120, scheduled_departure_time := some 600,
        is_real_time := none }).1 (by decide),
   (C5_amended_preference
      { departure_time := none, scheduled_departure_time := none,
        is_real_time := none }).2.2 rfl rfl 0 "a" "b" 1 "c" "d" "e"⟩

/-- Witness for C6: dropping the failing `badStop` leaves the arrivals of
the good stop unchanged. -/
theorem C6_witness :
    (get_bus_arrival_times 0 (fun _ _ : Int => some (some ([wStop] ++ badStop :: [])))
        wDepsSel 0 0).map AggResult.arrivals
      = (get_bus_arrival_times 0 (fun _ _ : Int => some (some ([wStop] ++ [])))
        wDepsSel 0 0).map AggResult.arrivals :=
  C6_partial_failure_isolation 0 wDepsSel 0 0 [wStop] [] badStop "Bad" "GBAD" 99
    rfl rfl rfl (Or.inl rfl)

/-- Witness for C8: a missing lat yields MISSING_PARAMETERS, an unparsable
lat yields INVALID_PARAMETERS. -/
theorem C8_witness :
    get_bus_arrivals (fun _ => (none : Option Int)) 0 (fun _ _ => none) (fun _ => none)
        none (some "x") = .ok (.clientError 400
          { success := false
            message := "Missing required parameters: lat and lon"
            error := "MISSING_PARAMETERS" }) ∧
    get_bus_arrivals (fun _ => (none : Option Int)) 0 (fun _ _ => none) (fun _ => none)
        (some "abc") (some "1") = .ok (.clientError 400
          { success := false
            message := "Invalid latitude or longitude values"
            error := "INVALID_PARAMETERS" }) :=
  ⟨(C8_parameter_validation (fun _ => none) 0 (fun _ _ => none) (fun _ => none)
      none (some "x")).1 (Or.inl rfl),
   (C8_parameter_validation (fun _ => none) 0 (fun _ _ => none) (fun _ => none)
      (some "abc") (some "1")).2 "abc" "1" rfl rfl (Or.inl rfl)⟩

/-- Witness for C9 at a schedule item with both time fields equal to 0. -/
theorem C9_witness :
    actualDepartureTime
        { departure_time := some 0, scheduled_departure_time := some 0, is_real_time := none }
      = some 0 ∧
    scheduleRecord 3 "a" "g" 2 "r" "s" "d"
        { departure_time := some 0, scheduled_departure_time := some 0, is_real_time := none }
      = [] :=
  ⟨(C9_zero_is_absent
      { departure_time := some 0, scheduled_departure_time := some 0,
        is_real_time := none } rfl).1,
   (C9_zero_is_absent
      { departure_time := some 0, scheduled_departure_time := some 0,
        is_real_time := none } rfl).2 (Or.inr rfl) 3 "a" "g" 2 "r" "s" "d"⟩

/-- Witness for C10 at the concrete one-stop fixture. -/
theorem C10_witness :
    wResult.latitude = 0 ∧ wResult.longitude = 0 ∧
    (wResult.success = false →
      wResult.stops_count = 0 ∧ wResult.arrivals = [] ∧
        wResult.error = some "STOPS_NOT_FOUND") :=
  C10_location_echo 0 wStops wDeps 0 0 wResult rfl
